import Mathlib

/-!
Shallow embedding of the sample scripts of the `frontier-agents-workshop`
repository, together with proofs about the embedded operations.

Conventions of the embedding:
* External library behaviour (pydantic parsing, `json.loads`, the random
  number generator, the environment, the filesystem) is passed in as an
  explicit function argument, so every theorem quantifies over all
  possible behaviours of the library while the repository's own control
  flow is translated literally from the source.
* A Python function that can raise is embedded as a function into
  `Except PyError _`; the constructors of `PyError` name the Python
  exception classes that can actually occur in the translated code.
* Python floats occurring in the mock data (`5.0 + j`, `10.0 + j`) only
  ever take exact small integral values, so they are carried as `Int`.
-/

/-- Python exception classes raised by the translated code. -/
inductive PyError
  | nameError
  | keyError
  | attributeError
  | jsonDecodeError
  deriving DecidableEq, Repr

/-! ## Definitions: samples/workflows/generation-workflow.py -/

namespace GenerationWorkflow

/-- `ReviewResult` pydantic model from `generation-workflow.py`. -/
structure ReviewResult where
  score : Int
  feedback : String
  clarity : Int
  completeness : Int
  accuracy : Int
  «structure» : Int
  deriving DecidableEq, Repr

/-- A value reaching the Reviewer's outgoing edge conditions: either an
`AgentExecutorResponse` (carrying `agent_run_response.text`) or any other
Python value. -/
inductive WfMessage
  | other
  | response (text : String)
  deriving DecidableEq, Repr

/-- `needs_editing` from `generation-workflow.py`.  `parse` stands for
`ReviewResult.model_validate_json`: `none` models the pydantic call
raising, which the source catches and maps to `False`. -/
def needs_editing (parse : String → Option ReviewResult) : WfMessage → Bool
  | .other => false
  | .response t =>
    match parse t with
    | some review => decide (review.score < 80)
    | none => false

/-- `is_approved` from `generation-workflow.py`.  A non-response message
yields `True`; a pydantic parse failure is caught and mapped to `True`. -/
def is_approved (parse : String → Option ReviewResult) : WfMessage → Bool
  | .other => true
  | .response t =>
    match parse t with
    | some review => decide (80 ≤ review.score)
    | none => true

/-- Concrete parse behaviour used to instantiate the theorems: every text
parses to a fixed review with score 85. -/
def parse85 : String → Option ReviewResult :=
  fun _ => some { score := 85, feedback := "good", clarity := 90,
                  completeness := 80, accuracy := 85, «structure» := 85 }

/-- Concrete parse behaviour where no text parses (pydantic always raises). -/
def parseNever : String → Option ReviewResult := fun _ => none

end GenerationWorkflow

/-! ## Definitions: samples/workflows/shared-state.py -/

namespace SharedState

/-- The fields of the intent dict that the `bridge` executor reads from a
successful `json.loads` of the intent agent's text.  The confidence float
is carried as the string it is rendered to inside the bridge's f-string. -/
structure IntentExtraction where
  intent : String
  confidence : String
  missing_info : List String
  deriving DecidableEq, Repr

/-- `AgentExecutorResponse` as consumed by the executors: only
`agent_run_response.text` is read. -/
structure AgentExecutorResponse where
  text : String
  deriving DecidableEq, Repr

/-- `AgentExecutorRequest` as produced by the executors: a single user
message and the `should_respond` flag. -/
structure AgentExecutorRequest where
  content : String
  should_respond : Bool
  deriving DecidableEq, Repr

/-- `', '.join(extraction.get('missing_info', [])) or 'none'`. -/
def joinMissing (l : List String) : String :=
  if String.intercalate ", " l = "" then "none" else String.intercalate ", " l

/-- The context f-string the bridge sends to the response agent. -/
def bridgeContext (message : String) (e : IntentExtraction) : String :=
  "Message: " ++ message ++ "\nIntent: " ++ e.intent ++
    " (confidence: " ++ e.confidence ++ ")\nMissing Info: " ++
    joinMissing e.missing_info

/-- The `bridge` executor of `shared-state.py`.  `jparse` stands for
`json.loads` applied to `resp.agent_run_response.text` (`none` models a
`json.JSONDecodeError`); `sharedMessage` is the value previously stored
under the shared-state key `"message"`.  The source wraps `json.loads` in
no `try`/`except`, so a decode error propagates out of the executor. -/
def bridge (jparse : String → Option IntentExtraction)
    (resp : AgentExecutorResponse) (sharedMessage : String) :
    Except PyError AgentExecutorRequest :=
  match jparse resp.text with
  | none => .error .jsonDecodeError
  | some extraction =>
    .ok { content := bridgeContext sharedMessage extraction,
          should_respond := true }

/-- Concrete `json.loads` behaviour in which no text is valid JSON. -/
def jparseNever : String → Option IntentExtraction := fun _ => none

/-- The usage string `main` prints when no task argument is given. -/
def usageText : String := "Usage: python src/minimal_workflow.py \"message\""

/-- Result of running `main`: the usage line, if printed, and the process
exit code. -/
structure MainOutcome where
  printedUsage : Option String
  exitCode : Nat
  deriving DecidableEq, Repr

/-- The message `main` hands to `workflow.run`: the file contents when the
derived resources path exists, the raw CLI argument otherwise. -/
def mainMessage (arg : String) (resourcesPath : String → String)
    (fileExists : String → Bool) (readFile : String → String) : String :=
  if fileExists (resourcesPath arg) then readFile (resourcesPath arg) else arg

/-- `main` of `shared-state.py`.  `argv` is `sys.argv` (program name
first).  `resourcesPath` models the `os.path.join`/`dirname`/`realpath`
computation, `fileExists` models `os.path.exists`, `readFile` the file
read, and `runWorkflow` models `workflow.run` (an error there is an
uncaught exception, which makes the interpreter exit non-zero). -/
def main (argv : List String) (resourcesPath : String → String)
    (fileExists : String → Bool) (readFile : String → String)
    (runWorkflow : String → Except PyError String) : MainOutcome :=
  if argv.length < 2 then
    { printedUsage := some usageText, exitCode := 1 }
  else
    let message := (argv.get? 1).getD ""
    let message := mainMessage message resourcesPath fileExists readFile
    match runWorkflow message with
    | .ok _ => { printedUsage := none, exitCode := 0 }
    | .error _ => { printedUsage := none, exitCode := 1 }

end SharedState

/-! ## Definitions: module-level credential resolution

The same block appears verbatim in `generation-workflow.py` (lines 31-43)
and `shared-state.py` (lines 101-113). -/

namespace CredentialSetup

/-- The hardcoded GitHub models endpoint. -/
def githubEndpoint : String := "https://models.github.ai/inference"

/-- The `if`/`elif` credential block.  `env` is `os.environ`.  The result
`some (token, endpoint)` means both names were bound; `Except.error
.keyError` models `os.environ["AZURE_OPENAI_ENDPOINT"]` raising when the
Azure key is set but the endpoint variable is not; `.ok none` means
neither branch ran, leaving `token` and `endpoint` unbound. -/
def credentialBlock (env : String → Option String) :
    Except PyError (Option (String × String)) :=
  match env "GITHUB_TOKEN" with
  | some t => .ok (some (t, githubEndpoint))
  | none =>
    match env "AZURE_OPENAI_API_KEY" with
    | some t =>
      match env "AZURE_OPENAI_ENDPOINT" with
      | some e => .ok (some (t, e))
      | none => .error .keyError
    | none => .ok none

/-- The `AsyncOpenAI` client value as the samples construct it. -/
structure AsyncOpenAIClient where
  base_url : String
  api_key : String
  deriving DecidableEq, Repr

/-- `AsyncOpenAI(base_url=endpoint, api_key=token)` at module level:
evaluating the unbound names `endpoint`/`token` raises `NameError` when
the credential block bound neither. -/
def constructClient (env : String → Option String) :
    Except PyError AsyncOpenAIClient :=
  match credentialBlock env with
  | .error e => .error e
  | .ok none => .error .nameError
  | .ok (some (t, e)) => .ok { base_url := e, api_key := t }

/-- Phases of executing a sample script from the top. -/
inductive ScriptPhase
  | clientConstruction
  | workflowRun
  deriving DecidableEq, Repr

/-- A sample script run from the top: module-level client construction
first, the workflow run only afterwards.  `runWf` stands for the rest of
the script (agent creation, workflow build and run) once a client exists.
Returns the phases that started together with the script's outcome. -/
def scriptRun (env : String → Option String)
    (runWf : AsyncOpenAIClient → Except PyError String) :
    List ScriptPhase × Except PyError String :=
  match constructClient env with
  | .error e => ([ScriptPhase.clientConstruction], .error e)
  | .ok c => ([ScriptPhase.clientConstruction, ScriptPhase.workflowRun], runWf c)

/-- Empty environment used to instantiate the theorems. -/
def emptyEnv : String → Option String := fun _ => none

end CredentialSetup

/-! ## Definitions: src/mcp-server/01-customer-server/data_functions.py -/

namespace DataFunctions

/-- `Discount` pydantic model. -/
structure Discount where
  discount_id : String
  discount_name : String
  discount_price : Int
  product_id : String
  discount_volume : Nat
  deriving DecidableEq, Repr

/-- `Product` pydantic model. -/
structure Product where
  product_id : String
  product_name : String
  list_price : Int
  description : String
  features : List String
  deriving DecidableEq, Repr

/-- `CustomerDiscount` pydantic model. -/
structure CustomerDiscount where
  customer_id : String
  discount_id : String
  discount_name : String
  discount_price : Int
  product_id : String
  discount_volume : Nat
  deriving DecidableEq, Repr

/-- `Supplier` pydantic model. -/
structure Supplier where
  supplier_id : String
  supplier_name : String
  contract_id : String
  contract_name : String
  products : List Product
  discounts : List Discount
  deriving DecidableEq, Repr

/-- `Customer` pydantic model: its only address-like field is
`customer_address`. -/
structure Customer where
  customer_id : String
  customer_name : String
  customer_address : String
  customer_phone : String
  customer_email : String
  customer_discount : List CustomerDiscount
  deriving DecidableEq, Repr

/-- `ProductInventory` pydantic model. -/
structure ProductInventory where
  product_id : String
  product_name : String
  volume : Nat
  location : String
  deriving DecidableEq, Repr

/-- `Order` pydantic model. -/
structure Order where
  customer_id : String
  order_id : String
  order_date : String
  order_status : String
  fill_date : String
  fill_strategy : String
  order_items : List Product
  deriving DecidableEq, Repr

/-- `DataLayer` holds the four in-memory lists. -/
structure DataLayer where
  suppliers : List Supplier
  customers : List Customer
  orders : List Order
  inventory : List ProductInventory
  deriving DecidableEq, Repr

/-- `DataLayer.generate_customer_data`: the 10-element customer list
comprehension, each customer with the 3-element discount comprehension. -/
def generate_customer_data : List Customer :=
  (List.range 10).map (fun i =>
    { customer_id := "CUST" ++ toString i,
      customer_name := "Customer " ++ toString i,
      customer_address := "Address " ++ toString i,
      customer_phone := "Phone " ++ toString i,
      customer_email := "   Email " ++ toString i,
      customer_discount := (List.range 3).map (fun j =>
        { customer_id := "CUST" ++ toString i,
          discount_id := "DISCOUNT" ++ toString j,
          discount_name := "Discount " ++ toString j,
          discount_price := 5 + Int.ofNat j,
          product_id := "PROD" ++ toString j,
          discount_volume := j * 10 }) })

/-- `DataLayer.generate_supplier_data`: the 10-element supplier list
comprehension, each supplier with 3 products and 3 discounts. -/
def generate_supplier_data : List Supplier :=
  (List.range 10).map (fun i =>
    { supplier_id := "SUPP" ++ toString i,
      supplier_name := "Supplier " ++ toString i,
      contract_id := "CONTRACT" ++ toString i,
      contract_name := "Contract " ++ toString i,
      products := (List.range 3).map (fun j =>
        { product_id := "PROD" ++ toString j,
          product_name := "Product " ++ toString j,
          list_price := 10 + Int.ofNat j,
          description := "Description for Product " ++ toString j,
          features := ["Feature 1", "Feature 2"] }),
      discounts := (List.range 3).map (fun j =>
        { discount_id := "DISCOUNT" ++ toString j,
          discount_name := "Discount " ++ toString j,
          discount_price := 5 + Int.ofNat j,
          product_id := "PROD" ++ toString j,
          discount_volume := j * 10 }) })

/-- The `for` loop of `DataLayer.get_customer_by_id` over
`self.customers`: first element whose `customer_id` equals the argument,
`None` otherwise. -/
def get_customer_by_id : List Customer → String → Option Customer
  | [], _ => none
  | c :: cs, customer_id =>
    if c.customer_id = customer_id then some c
    else get_customer_by_id cs customer_id

/-- The `for` loop of `DataLayer.get_customer_by_name` over
`self.customers`. -/
def get_customer_by_name : List Customer → String → Option Customer
  | [], _ => none
  | c :: cs, customer_name =>
    if c.customer_name = customer_name then some c
    else get_customer_by_name cs customer_name

/-- The `for` loop of `DataLayer.get_order_by_id` over `self.orders`. -/
def get_order_by_id : List Order → String → Option Order
  | [], _ => none
  | o :: os, order_id =>
    if o.order_id = order_id then some o
    else get_order_by_id os order_id

/-- The `enumerate` loop of `DataLayer.update_order`: assign
`self.orders[i] = order_data` at the first index whose `order_id` matches
and return `True`; return `False` after a full scan. -/
def update_order : List Order → String → Order → Bool × List Order
  | [], _, _ => (false, [])
  | o :: os, order_id, order_data =>
    if o.order_id = order_id then (true, order_data :: os)
    else
      let r := update_order os order_id order_data
      (r.1, o :: r.2)

/-- `DataLayer.get_customer_by_id` as a method: the result together with
the data layer after the call (the method only reads `self.customers`). -/
def DataLayer.get_customer_by_id (d : DataLayer) (customer_id : String) :
    Option Customer × DataLayer :=
  (DataFunctions.get_customer_by_id d.customers customer_id, d)

/-- `DataLayer.get_order_by_id` as a method: the result together with the
data layer after the call (the method only reads `self.orders`). -/
def DataLayer.get_order_by_id (d : DataLayer) (order_id : String) :
    Option Order × DataLayer :=
  (DataFunctions.get_order_by_id d.orders order_id, d)

/-- `DataLayer.update_order` as a method: the boolean result together
with the data layer after the call. -/
def DataLayer.update_order (d : DataLayer) (order_id : String)
    (order_data : Order) : Bool × DataLayer :=
  let r := DataFunctions.update_order d.orders order_id order_data
  (r.1, { d with orders := r.2 })

/-- A concrete customer used to instantiate the theorems. -/
def sampleCustomer : Customer :=
  { customer_id := "CUST0", customer_name := "Customer 0",
    customer_address := "Address 0", customer_phone := "Phone 0",
    customer_email := "   Email 0", customer_discount := [] }

/-- A second concrete customer with a different id. -/
def sampleCustomer1 : Customer :=
  { sampleCustomer with customer_id := "CUST1", customer_name := "Customer 1" }

/-- A concrete order used to instantiate the theorems. -/
def sampleOrder : Order :=
  { customer_id := "CUST0", order_id := "ORDER0",
    order_date := "2023-10-01", order_status := "Pending",
    fill_date := "2023-10-02", fill_strategy := "Standard",
    order_items := [] }

/-- A second concrete order with a different id. -/
def sampleOrder1 : Order :=
  { sampleOrder with order_id := "ORDER1" }

/-- The replacement order used to instantiate the update theorems. -/
def sampleOrderNew : Order :=
  { sampleOrder with order_status := "Shipped" }

end DataFunctions

/-! ## Definitions: samples/agents_as_tools/server/weather_agent.py -/

namespace WeatherAgent

/-- The `conditions` list of `get_weather`. -/
def conditions : List String := ["sunny", "cloudy", "rainy", "stormy"]

/-- `get_weather` from `weather_agent.py`.  The two calls to `randint`
are passed in as the drawn values: `conditionDraw` is the result of
`randint(0, 3)` used to index `conditions`, and `temperatureDraw` the
result of `randint(10, 30)`. -/
def get_weather (location : String) (conditionDraw : Nat)
    (temperatureDraw : Int) : String :=
  "The weather in " ++ location ++ " is " ++ conditions.getD conditionDraw ""
    ++ " with a high of " ++ toString temperatureDraw ++ "°C."

end WeatherAgent

/-! ## Definitions: src/mcp-server/01-customer-server/server-mcp-sse-customers.py -/

namespace CustomerServer

open DataFunctions

/-- Attribute access on a pydantic `Customer` instance, over the fields
declared in `data_functions.py` (only the string-valued fields are
modelled; the code under study accesses only `"address"`).  An attribute
that is not a declared field raises `AttributeError`. -/
def customerAttr (c : Customer) (attr : String) : Except PyError String :=
  if attr = "customer_id" then .ok c.customer_id
  else if attr = "customer_name" then .ok c.customer_name
  else if attr = "customer_address" then .ok c.customer_address
  else if attr = "customer_phone" then .ok c.customer_phone
  else if attr = "customer_email" then .ok c.customer_email
  else .error .attributeError

/-- Python's `sub in s` substring test. -/
def strContains (sub s : String) : Bool :=
  decide (List.IsInfix sub.toList s.toList)

/-- `get_closest_inventory_location` from
`server-mcp-sse-customers.py`, over the customer list the server's data
layer loaded: look the customer up by name, return a fixed string when
absent, otherwise branch on `customer_details.address`. -/
def get_closest_inventory_location (customers : List Customer)
    (customer_name : String) : Except PyError String :=
  match DataFunctions.get_customer_by_name customers customer_name with
  | none => .ok "Customer location unknown"
  | some customer_details =>
    match customerAttr customer_details "address" with
    | .error e => .error e
    | .ok address =>
      if strContains "Germany" address then .ok "EuropeWest"
      else if strContains "IL" address then .ok "USEast"
      else .ok "EuropeWest"

end CustomerServer

/-! ## Theorems -/

open GenerationWorkflow in
/-- Claim C1: for every message passed to the Reviewer's outgoing edge
conditions, exactly one of `is_approved` and `needs_editing` returns true,
never both and never neither; and for every message whose text parses as a
`ReviewResult` with score at least 80, `is_approved` is true and
`needs_editing` is false. -/
theorem C1_exclusive_branching (parse : String → Option ReviewResult)
    (msg : WfMessage) :
    is_approved parse msg = !needs_editing parse msg ∧
    (∀ t r, msg = .response t → parse t = some r → 80 ≤ r.score →
      is_approved parse msg = true ∧ needs_editing parse msg = false) := by
  constructor
  · cases msg with
    | other => rfl
    | response t =>
      simp only [is_approved, needs_editing]
      cases h : parse t with
      | none => rfl
      | some r =>
        simp only [Bool.not_eq_true']
        by_cases hs : 80 ≤ r.score
        · simp [hs, not_lt.mpr hs]
        · simp [hs, lt_of_not_le hs]
  · intro t r hmsg hparse hscore
    subst hmsg
    simp [is_approved, needs_editing, hparse, hscore, not_lt.mpr hscore]

open GenerationWorkflow in
/-- Witness for C1 at a concrete input: text parsing with score 85 fires
the publish branch and not the editor branch. -/
theorem C1_exclusive_branching_witness :
    is_approved parse85 (.response "s") = true ∧
    needs_editing parse85 (.response "s") = false :=
  (C1_exclusive_branching parse85 (.response "s")).2 "s"
    { score := 85, feedback := "good", clarity := 90,
      completeness := 80, accuracy := 85, «structure» := 85 }
    rfl rfl (by decide)

open GenerationWorkflow in
/-- Counterexample to claim C2: on an erroneous input (a message that is
not an `AgentExecutorResponse`, or whose text fails to parse),
`is_approved` evaluates to `true`, not to `false` as the claim states. -/
theorem C2_counterexample :
    is_approved parseNever WfMessage.other = true ∧
    is_approved parseNever (WfMessage.response "not json") = true ∧
    needs_editing parseNever (WfMessage.response "not json") = false :=
  ⟨rfl, rfl, rfl⟩

open GenerationWorkflow in
/-- Claim C2 (amended): when evaluation of an edge condition encounters an
error (the message is not an `AgentExecutorResponse`, or its text does not
parse as a `ReviewResult`), `needs_editing` evaluates to false but
`is_approved` evaluates to true, so the editor edge does not fire while
the publish edge does. -/
theorem C2_error_defaults (parse : String → Option ReviewResult)
    (msg : WfMessage)
    (h : msg = .other ∨ ∃ t, msg = .response t ∧ parse t = none) :
    needs_editing parse msg = false ∧ is_approved parse msg = true := by
  rcases h with h | ⟨t, hmsg, hparse⟩
  · subst h; exact ⟨rfl, rfl⟩
  · subst hmsg
    simp [needs_editing, is_approved, hparse]

open GenerationWorkflow in
/-- Witness for the amended C2 at a concrete erroneous input. -/
theorem C2_error_defaults_witness :
    needs_editing parseNever (WfMessage.response "bad") = false ∧
    is_approved parseNever (WfMessage.response "bad") = true :=
  C2_error_defaults parseNever (WfMessage.response "bad")
    (Or.inr ⟨"bad", rfl, rfl⟩)

open SharedState in
/-- Counterexample to claim C3: at a concrete `AgentExecutorResponse`
whose text does not parse as JSON, the `bridge` executor of the
customer-support workflow raises the decode error instead of producing a
fallback output. -/
theorem C3_counterexample :
    bridge jparseNever { text := "not json" } "where is my package" =
      Except.error PyError.jsonDecodeError := rfl

open SharedState in
/-- Claim C3 (amended): for every `AgentExecutorResponse` whose
`agent_run_response.text` is not valid JSON, the `bridge` executor raises
the `json.loads` decode error (there is no fallback path), so the run
fails rather than degrading to a default branch. -/
theorem C3_bridge_raises (jparse : String → Option IntentExtraction)
    (resp : AgentExecutorResponse) (sharedMessage : String)
    (h : jparse resp.text = none) :
    bridge jparse resp sharedMessage = .error .jsonDecodeError := by
  simp [bridge, h]

open SharedState in
/-- Witness for the amended C3 at a concrete input. -/
theorem C3_bridge_raises_witness :
    bridge jparseNever { text := "oops" } "m" =
      Except.error PyError.jsonDecodeError :=
  C3_bridge_raises jparseNever { text := "oops" } "m" rfl

open CredentialSetup in
/-- Claim C4: if neither `GITHUB_TOKEN` nor `AZURE_OPENAI_API_KEY` is set,
the script raises `NameError` while constructing the `AsyncOpenAI` client
(`token` and `endpoint` were never bound), and the workflow-run phase is
never reached. -/
theorem C4_missing_credentials_fatal (env : String → Option String)
    (runWf : AsyncOpenAIClient → Except PyError String)
    (hg : env "GITHUB_TOKEN" = none)
    (ha : env "AZURE_OPENAI_API_KEY" = none) :
    constructClient env = .error .nameError ∧
    (scriptRun env runWf).2 = .error .nameError ∧
    ScriptPhase.workflowRun ∉ (scriptRun env runWf).1 := by
  have hc : constructClient env = .error .nameError := by
    simp [constructClient, credentialBlock, hg, ha]
  refine ⟨hc, ?_, ?_⟩
  · simp [scriptRun, hc]
  · simp [scriptRun, hc]

open CredentialSetup in
/-- Witness for C4 on the empty environment. -/
theorem C4_missing_credentials_fatal_witness :
    constructClient emptyEnv = .error .nameError ∧
    (scriptRun emptyEnv (fun _ => .ok "done")).2 = .error .nameError ∧
    ScriptPhase.workflowRun ∉ (scriptRun emptyEnv (fun _ => .ok "done")).1 :=
  C4_missing_credentials_fatal emptyEnv (fun _ => .ok "done") rfl rfl

open SharedState in
/-- Claim C5: with no task argument `main` prints the usage line and
exits with code 1; with a task argument and a completing workflow run it
exits with code 0. -/
theorem C5_cli_entry (argv : List String) (resourcesPath : String → String)
    (fileExists : String → Bool) (readFile : String → String)
    (runWorkflow : String → Except PyError String) :
    (argv.length < 2 →
      main argv resourcesPath fileExists readFile runWorkflow =
        { printedUsage := some usageText, exitCode := 1 }) ∧
    (∀ out, 2 ≤ argv.length →
      runWorkflow
          (mainMessage ((argv.get? 1).getD "") resourcesPath fileExists
            readFile) = .ok out →
      main argv resourcesPath fileExists readFile runWorkflow =
        { printedUsage := none, exitCode := 0 }) := by
  constructor
  · intro h
    simp [main, h]
  · intro out h hrun
    simp only [main, if_neg (not_lt.mpr h)]
    rw [hrun]

open SharedState in
/-- Witness for C5: a bare invocation exits 1 with the usage line, and an
invocation with a task whose run completes exits 0. -/
theorem C5_cli_entry_witness :
    main ["prog"] id (fun _ => false) id (fun _ => .ok "r") =
      { printedUsage := some usageText, exitCode := 1 } ∧
    main ["prog", "task"] id (fun _ => false) id (fun _ => .ok "r") =
      { printedUsage := none, exitCode := 0 } :=
  ⟨(C5_cli_entry ["prog"] id (fun _ => false) id (fun _ => .ok "r")).1
      (by decide),
   (C5_cli_entry ["prog", "task"] id (fun _ => false) id
      (fun _ => .ok "r")).2 "r" (by decide) rfl⟩

open DataFunctions in
/-- Claim C6: both mock-data generators produce exactly 10 records, the
customer ids are `CUST0`..`CUST9`, each customer carries exactly 3
discounts, and each supplier has exactly 3 products and 3 discounts. -/
theorem C6_generators_ten_records :
    generate_customer_data.length = 10 ∧
    generate_customer_data.map (fun c => c.customer_id) =
      ["CUST0", "CUST1", "CUST2", "CUST3", "CUST4",
       "CUST5", "CUST6", "CUST7", "CUST8", "CUST9"] ∧
    generate_customer_data.all
      (fun c => c.customer_discount.length == 3) = true ∧
    generate_supplier_data.length = 10 ∧
    generate_supplier_data.all
      (fun s => s.products.length == 3 && s.discounts.length == 3) = true :=
  ⟨rfl, by decide, by decide, rfl, by decide⟩

namespace DataFunctions

/-- A customer returned by `get_customer_by_id` has the requested id and
is the first element of the list with that id. -/
theorem get_customer_by_id_some (cs : List Customer) (cid : String)
    (c : Customer) (h : get_customer_by_id cs cid = some c) :
    c.customer_id = cid ∧
    ∃ pre suf, cs = pre ++ c :: suf ∧ ∀ x ∈ pre, x.customer_id ≠ cid := by
  induction cs with
  | nil => simp [get_customer_by_id] at h
  | cons hd tl ih =>
    by_cases hh : hd.customer_id = cid
    · simp only [get_customer_by_id, if_pos hh, Option.some.injEq] at h
      subst h
      exact ⟨hh, [], tl, rfl, by simp⟩
    · simp only [get_customer_by_id, if_neg hh] at h
      obtain ⟨h1, pre, suf, heq, hpre⟩ := ih h
      refine ⟨h1, hd :: pre, suf, by simp [heq], ?_⟩
      intro x hx
      rcases List.mem_cons.mp hx with hx | hx
      · subst hx; exact hh
      · exact hpre x hx

/-- `get_customer_by_id` returns `None` exactly when no element of the
list has the requested id. -/
theorem get_customer_by_id_none (cs : List Customer) (cid : String) :
    get_customer_by_id cs cid = none ↔
      ∀ x ∈ cs, x.customer_id ≠ cid := by
  induction cs with
  | nil => simp [get_customer_by_id]
  | cons hd tl ih =>
    by_cases hh : hd.customer_id = cid
    · simp [get_customer_by_id, if_pos hh, hh]
    · simp [get_customer_by_id, if_neg hh, ih, hh]

/-- An order returned by `get_order_by_id` has the requested id and is
the first element of the list with that id. -/
theorem get_order_by_id_some (os : List Order) (oid : String) (o : Order)
    (h : get_order_by_id os oid = some o) :
    o.order_id = oid ∧
    ∃ pre suf, os = pre ++ o :: suf ∧ ∀ x ∈ pre, x.order_id ≠ oid := by
  induction os with
  | nil => simp [get_order_by_id] at h
  | cons hd tl ih =>
    by_cases hh : hd.order_id = oid
    · simp only [get_order_by_id, if_pos hh, Option.some.injEq] at h
      subst h
      exact ⟨hh, [], tl, rfl, by simp⟩
    · simp only [get_order_by_id, if_neg hh] at h
      obtain ⟨h1, pre, suf, heq, hpre⟩ := ih h
      refine ⟨h1, hd :: pre, suf, by simp [heq], ?_⟩
      intro x hx
      rcases List.mem_cons.mp hx with hx | hx
      · subst hx; exact hh
      · exact hpre x hx

/-- `get_order_by_id` returns `None` exactly when no element of the list
has the requested id. -/
theorem get_order_by_id_none (os : List Order) (oid : String) :
    get_order_by_id os oid = none ↔ ∀ x ∈ os, x.order_id ≠ oid := by
  induction os with
  | nil => simp [get_order_by_id]
  | cons hd tl ih =>
    by_cases hh : hd.order_id = oid
    · simp [get_order_by_id, if_pos hh, hh]
    · simp [get_order_by_id, if_neg hh, ih, hh]

/-- `update_order` on a list with no matching id returns `False` and the
unchanged list. -/
theorem update_order_no_match (os : List Order) (oid : String)
    (od : Order) (h : ∀ o ∈ os, o.order_id ≠ oid) :
    update_order os oid od = (false, os) := by
  induction os with
  | nil => rfl
  | cons hd tl ih =>
    have hh : hd.order_id ≠ oid := h hd (by simp)
    have ht : ∀ o ∈ tl, o.order_id ≠ oid := fun o ho => h o (by simp [ho])
    simp [update_order, if_neg hh, ih ht]

/-- `update_order` replaces exactly the first matching entry. -/
theorem update_order_first_match (pre suf : List Order) (old od : Order)
    (oid : String) (hold : old.order_id = oid)
    (hpre : ∀ x ∈ pre, x.order_id ≠ oid) :
    update_order (pre ++ old :: suf) oid od = (true, pre ++ od :: suf) := by
  induction pre with
  | nil => simp [update_order, if_pos hold]
  | cons hd tl ih =>
    have hh : hd.order_id ≠ oid := hpre hd (by simp)
    have ht : ∀ x ∈ tl, x.order_id ≠ oid := fun x hx => hpre x (by simp [hx])
    simp [update_order, if_neg hh, ih ht]

/-- `update_order` reports `True` as soon as some entry matches. -/
theorem update_order_fst_of_mem (os : List Order) (oid : String)
    (od : Order) (h : ∃ o ∈ os, o.order_id = oid) :
    (update_order os oid od).1 = true := by
  induction os with
  | nil => simp at h
  | cons hd tl ih =>
    by_cases hh : hd.order_id = oid
    · simp [update_order, if_pos hh]
    · simp only [List.mem_cons, exists_eq_or_imp] at h
      rcases h with h | h
      · exact absurd h hh
      · simp [update_order, if_neg hh, ih h]

end DataFunctions

open DataFunctions in
/-- Claim C7: `get_customer_by_id` and `get_order_by_id` are linear scans
returning the first stored element whose id equals the argument, `None`
when no element matches, and they leave the data layer unchanged. -/
theorem C7_id_lookups_linear_scan (d : DataLayer)
    (customer_id order_id : String) :
    (∀ c, (d.get_customer_by_id customer_id).1 = some c →
      c.customer_id = customer_id ∧
      ∃ pre suf, d.customers = pre ++ c :: suf ∧
        ∀ x ∈ pre, x.customer_id ≠ customer_id) ∧
    ((d.get_customer_by_id customer_id).1 = none ↔
      ∀ x ∈ d.customers, x.customer_id ≠ customer_id) ∧
    (d.get_customer_by_id customer_id).2 = d ∧
    (∀ o, (d.get_order_by_id order_id).1 = some o →
      o.order_id = order_id ∧
      ∃ pre suf, d.orders = pre ++ o :: suf ∧
        ∀ x ∈ pre, x.order_id ≠ order_id) ∧
    ((d.get_order_by_id order_id).1 = none ↔
      ∀ x ∈ d.orders, x.order_id ≠ order_id) ∧
    (d.get_order_by_id order_id).2 = d :=
  ⟨fun c h => get_customer_by_id_some d.customers customer_id c h,
   get_customer_by_id_none d.customers customer_id,
   rfl,
   fun o h => get_order_by_id_some d.orders order_id o h,
   get_order_by_id_none d.orders order_id,
   rfl⟩

open DataFunctions in
/-- Witness for C7 on a concrete two-element data layer. -/
theorem C7_id_lookups_linear_scan_witness :
    (DataLayer.get_customer_by_id
        ⟨[], [sampleCustomer, sampleCustomer1], [], []⟩ "CUST1").1 =
      some sampleCustomer1 ∧
    sampleCustomer1.customer_id = "CUST1" ∧
    (DataLayer.get_order_by_id
        ⟨[], [], [sampleOrder], []⟩ "MISSING").1 = none := by
  have h := (C7_id_lookups_linear_scan
      ⟨[], [sampleCustomer, sampleCustomer1], [], []⟩ "CUST1" "X").1
      sampleCustomer1 (by decide)
  have h2 := (C7_id_lookups_linear_scan
      ⟨[], [], [sampleOrder], []⟩ "X" "MISSING").2.2.2.2.1.mpr (by decide)
  exact ⟨by decide, h.1, h2⟩

open WeatherAgent in
/-- Claim C8: for every location and every outcome of the two random
draws, `get_weather` returns exactly the string
`The weather in {location} is {condition} with a high of {temperature}°C.`
where the condition is one of sunny, cloudy, rainy, stormy and the
temperature is the integer drawn from 10..30. -/
theorem C8_get_weather_format (location : String) (conditionDraw : Nat)
    (temperatureDraw : Int) (hc : conditionDraw ≤ 3)
    (h1 : 10 ≤ temperatureDraw) (h2 : temperatureDraw ≤ 30) :
    ∃ condition,
      condition ∈ conditions ∧
      (condition = "sunny" ∨ condition = "cloudy" ∨
        condition = "rainy" ∨ condition = "stormy") ∧
      get_weather location conditionDraw temperatureDraw =
        "The weather in " ++ location ++ " is " ++ condition ++
          " with a high of " ++ toString temperatureDraw ++ "°C." ∧
      10 ≤ temperatureDraw ∧ temperatureDraw ≤ 30 := by
  interval_cases conditionDraw
  · exact ⟨"sunny", by decide, by decide, rfl, h1, h2⟩
  · exact ⟨"cloudy", by decide, by decide, rfl, h1, h2⟩
  · exact ⟨"rainy", by decide, by decide, rfl, h1, h2⟩
  · exact ⟨"stormy", by decide, by decide, rfl, h1, h2⟩

open WeatherAgent in
/-- Witness for C8 at a concrete draw. -/
theorem C8_get_weather_format_witness :
    ∃ condition,
      condition ∈ conditions ∧
      (condition = "sunny" ∨ condition = "cloudy" ∨
        condition = "rainy" ∨ condition = "stormy") ∧
      get_weather "Paris" 2 21 =
        "The weather in " ++ "Paris" ++ " is " ++ condition ++
          " with a high of " ++ toString (21 : Int) ++ "°C." ∧
      (10 : Int) ≤ 21 ∧ (21 : Int) ≤ 30 :=
  C8_get_weather_format "Paris" 2 21 (by decide) (by decide) (by decide)

open CustomerServer DataFunctions in
/-- Claim C9: whenever the name lookup finds a customer,
`get_closest_inventory_location` raises `AttributeError` (it reads
`customer_details.address`, but `Customer` declares only
`customer_address`); it returns `Customer location unknown` exactly when
the lookup finds nothing. -/
theorem C9_location_attribute_error (customers : List Customer)
    (customer_name : String) :
    (∀ c, get_customer_by_name customers customer_name = some c →
      get_closest_inventory_location customers customer_name =
        .error .attributeError) ∧
    (get_customer_by_name customers customer_name = none →
      get_closest_inventory_location customers customer_name =
        .ok "Customer location unknown") := by
  constructor
  · intro c h
    simp only [get_closest_inventory_location, h]
    rfl
  · intro h
    simp only [get_closest_inventory_location, h]

open CustomerServer DataFunctions in
/-- Witness for C9: the sample customer is found by name and the endpoint
raises; an unknown name yields the fallback string. -/
theorem C9_location_attribute_error_witness :
    get_closest_inventory_location [sampleCustomer] "Customer 0" =
      Except.error PyError.attributeError ∧
    get_closest_inventory_location [sampleCustomer] "Nobody" =
      Except.ok "Customer location unknown" :=
  ⟨(C9_location_attribute_error [sampleCustomer] "Customer 0").1
      sampleCustomer (by decide),
   (C9_location_attribute_error [sampleCustomer] "Nobody").2 (by decide)⟩

open DataFunctions in
/-- Claim C10: `update_order` is atomic on failure: with a matching
stored order it returns `True` and replaces exactly the first matching
entry, leaving every other entry unchanged; with no matching order it
returns `False` and leaves the orders list entirely unchanged. -/
theorem C10_update_order_atomic (d : DataLayer) (order_id : String)
    (order_data : Order) :
    (∀ pre old suf, d.orders = pre ++ old :: suf →
      old.order_id = order_id → (∀ x ∈ pre, x.order_id ≠ order_id) →
      d.update_order order_id order_data =
        (true, { d with orders := pre ++ order_data :: suf })) ∧
    ((∃ o ∈ d.orders, o.order_id = order_id) →
      (d.update_order order_id order_data).1 = true) ∧
    ((∀ o ∈ d.orders, o.order_id ≠ order_id) →
      d.update_order order_id order_data = (false, d)) := by
  refine ⟨?_, ?_, ?_⟩
  · intro pre old suf heq hold hpre
    simp [DataLayer.update_order, heq,
      update_order_first_match pre suf old order_data order_id hold hpre]
  · intro h
    simp [DataLayer.update_order, update_order_fst_of_mem d.orders order_id
      order_data h]
  · intro h
    simp [DataLayer.update_order, update_order_no_match d.orders order_id
      order_data h]

open DataFunctions in
/-- Witness for C10 on a concrete two-order data layer: a matching id
replaces only the first entry, a missing id changes nothing. -/
theorem C10_update_order_atomic_witness :
    DataLayer.update_order ⟨[], [], [sampleOrder, sampleOrder1], []⟩
        "ORDER0" sampleOrderNew =
      (true, ⟨[], [], [sampleOrderNew, sampleOrder1], []⟩) ∧
    DataLayer.update_order ⟨[], [], [sampleOrder, sampleOrder1], []⟩
        "MISSING" sampleOrderNew =
      (false, ⟨[], [], [sampleOrder, sampleOrder1], []⟩) := by
  have h1 := (C10_update_order_atomic
      ⟨[], [], [sampleOrder, sampleOrder1], []⟩ "ORDER0" sampleOrderNew).1
      [] sampleOrder [sampleOrder1] rfl (by decide) (by simp)
  have h2 := (C10_update_order_atomic
      ⟨[], [], [sampleOrder, sampleOrder1], []⟩ "MISSING"
      sampleOrderNew).2.2 (by decide)
  exact ⟨h1, h2⟩
